import Mathlib

/-!
A shallow embedding of the go-exactonline REST client (package rest,
client.go) and the edm DateTime codec, together with theorems about
request building, response decoding, resource release and timestamp
parsing.

Go machine integers are modelled as Nat/Int with explicit wrap-around
(mod 2^64) where the source can overflow.  Fallible Go code returns
Except/Option.  A Go nil-pointer dereference is modelled as a distinct
outcome constructor, never as a value.
-/

namespace Rest

/-- JSON values, as produced by encoding/json. -/
inductive Json where
  | null : Json
  | bool (b : Bool) : Json
  | num (n : Int) : Json
  | str (s : String) : Json
  | arr (xs : List Json) : Json
  | obj (fields : List (String × Json)) : Json

/-- Field lookup in a JSON object, as the decoder matching a struct tag. -/
def jsonLookup (k : String) : List (String × Json) → Option Json
  | [] => none
  | (k', v) :: rest => if k' = k then some v else jsonLookup k rest

/-- The static Go type of the value a caller passes as responseBody:
the shape json.Unmarshal checks the payload against. -/
inductive Shape where
  | any : Shape
  | num : Shape
  | str : Shape
  | bool : Shape

/-- Does a JSON value decode into a Go value of the given shape?
interface\x7b\x7d (Shape.any) accepts everything. -/
def shapeOK : Shape → Json → Bool
  | .any, _ => true
  | .num, .num _ => true
  | .str, .str _ => true
  | .bool, .bool _ => true
  | _, _ => false

/-- The caller-provided decode target: a pointer to a typed Go value.
val is the current contents of the pointed-to value. -/
structure Slot where
  shape : Shape
  val : Json

/-- The bytes of a response body, as seen by json.NewDecoder. -/
inductive Body where
  | empty : Body
  | invalid : Body
  | json (v : Json) : Body

/-- Errors json.Decoder.Decode can return: io.EOF on an empty stream,
a syntax error on bytes that are not JSON, an UnmarshalTypeError on a
shape mismatch. -/
inductive DecErr where
  | eof : DecErr
  | malformed : DecErr
  | typeMismatch : DecErr
deriving DecidableEq

/-- Decoding the value found under d.results into the Results field of
the envelope.  When the caller passed nil (target = none) the field is
a nil interface\x7b\x7d and json.Unmarshal decodes generically, never
failing on shape.  When the caller passed a pointer, the pointed-to
value is overwritten on a shape match; JSON null is a documented no-op
for value types; otherwise an UnmarshalTypeError results. -/
def decodeResults (target : Option Slot) (rv : Json) : Except DecErr (Option Slot) :=
  match target with
  | none => .ok none
  | some slot =>
    match rv with
    | .null => .ok (some slot)
    | _ => if shapeOK slot.shape rv then .ok (some { slot with val := rv }) else .error .typeMismatch

/-- Decoding the value found under the top-level d key into the inner
struct D \x7b Results interface\x7b\x7d \x7d.  Unknown fields are
ignored; a missing results field is a no-op; null into a struct is a
no-op; a non-object is an UnmarshalTypeError. -/
def decodeD (target : Option Slot) (dv : Json) : Except DecErr (Option Slot) :=
  match dv with
  | .null => .ok target
  | .obj dfields =>
    match jsonLookup "results" dfields with
    | none => .ok target
    | some rv => decodeResults target rv
  | _ => .error .typeMismatch

/-- json.NewDecoder(body).Decode(envelope) where envelope is
Envelope\x7bD: D\x7bResults: responseBody\x7d\x7d, as in Do.  An empty
stream gives io.EOF; bytes that are not JSON give a syntax error; a
JSON object lacking the d key leaves the envelope untouched with no
error, as encoding/json ignores missing fields; null into a struct is
a no-op; any other top-level value is an UnmarshalTypeError.
Field-order-dependent partial writes of the Go decoder are not
modelled: this decode is atomic. -/
def decodeEnvelope (target : Option Slot) (body : Body) : Except DecErr (Option Slot) :=
  match body with
  | .empty => .error .eof
  | .invalid => .error .malformed
  | .json v =>
    match v with
    | .null => .ok target
    | .obj fields =>
      match jsonLookup "d" fields with
      | none => .ok target
      | some dv => decodeD target dv
    | _ => .error .typeMismatch

/-- A parsed URL: the fields of net/url.URL that the client touches. -/
structure URL where
  scheme : String
  host : String
  path : String
  query : String
deriving DecidableEq

/-- The rest.Client configuration.  The HTTP transport itself is kept
outside the structure and passed to Do as the dispatch outcome. -/
structure Client where
  baseURL : Option URL
  debug : Bool
  userAgent : String
  hasCallback : Bool
deriving DecidableEq

/-- strings.TrimSuffix(basePath, slash): removes one trailing slash if
present. -/
def trimSuffixSlash (l : List Char) : List Char :=
  if l.getLast? = some '/' then l.dropLast else l

/-- The leading-slash normalization in GetEndpoint: if the path does
not begin with a slash, one is prepended. -/
def ensureLeadingSlash (l : List Char) : List Char :=
  if l.head? = some '/' then l else '/' :: l

/-- The path composition performed by GetEndpoint: trimmed base path
concatenated with the normalized relative path. -/
def resolvePath (b p : List Char) : List Char :=
  trimSuffixSlash b ++ ensureLeadingSlash p

/-- String version of resolvePath, as GetEndpoint computes u.Path. -/
def resolvePathStr (b p : String) : String :=
  (resolvePath b.toList p.toList).asString

/-- Length of the run of slashes at the start of a list. -/
def leadingSlashes (l : List Char) : Nat :=
  (l.takeWhile (· = '/')).length

/-- Length of the run of slashes at the end of a list. -/
def trailingSlashes (l : List Char) : Nat :=
  leadingSlashes l.reverse

/-- The number of consecutive slash characters at the junction of the
trimmed base path and the normalized relative path inside the resolved
URL path. -/
def junctionSlashes (b p : List Char) : Nat :=
  trailingSlashes (trimSuffixSlash b) + leadingSlashes (ensureLeadingSlash p)

/-- Outcome of Client.GetEndpoint.  The Go method dereferences
c.baseURL unconditionally, so an unset base URL is a nil-pointer
dereference panic, modelled as the error of the Except.  Otherwise the
base URL struct is copied and only its Path replaced. -/
def GetEndpoint (c : Client) (path : String) : Except Unit URL :=
  match c.baseURL with
  | none => .error ()
  | some base => .ok { base with path := resolvePathStr base.path path }

/-- State-passing form of GetEndpoint: the method body only reads the
receiver, so the client comes back unchanged. -/
def GetEndpointS (c : Client) (path : String) : Except Unit URL × Client :=
  (GetEndpoint c path, c)

/-- A request body value as handed to json.NewEncoder: either a value
that serializes to some JSON, or one on which Encode fails. -/
inductive BodyVal where
  | good (j : Json) : BodyVal
  | bad : BodyVal

/-- The constructed http.Request: method, resolved URL, encoded body,
headers, and whether a context was attached. -/
structure Request where
  method : String
  url : URL
  body : Option Json
  headers : List (String × String)
  hasContext : Bool

/-- The three headers NewRequest always sets. -/
def stdHeaders (userAgent : String) : List (String × String) :=
  [("Content-Type", "application/json; charset=utf-8"),
   ("Accept", "application/json"),
   ("User-Agent", userAgent)]

/-- Outcome of Client.NewRequest.  panicNilDeref is the Go runtime
panic raised inside GetEndpoint when baseURL is nil; encodingFailure
is the error returned when json encoding of the body fails;
invalidURL is the InvalidURLError of the spec taxonomy, listed here so
the taxonomy is expressible, though the source never constructs it. -/
inductive ReqOutcome where
  | panicNilDeref : ReqOutcome
  | encodingFailure : ReqOutcome
  | invalidURL : ReqOutcome
  | ok (r : Request) : ReqOutcome

/-- Client.NewRequest: resolve the endpoint first (panicking when the
base URL is unset), then encode the body, then build the request with
the standard headers, attaching the context when one was supplied. -/
def NewRequest (c : Client) (hasCtx : Bool) (method path : String) (body : Option BodyVal) : ReqOutcome :=
  match c.baseURL with
  | none => .panicNilDeref
  | some base =>
    let u : URL := { base with path := resolvePathStr base.path path }
    match body with
    | some .bad => .encodingFailure
    | some (.good j) => .ok ⟨method, u, some j, stdHeaders c.userAgent, hasCtx⟩
    | none => .ok ⟨method, u, none, stdHeaders c.userAgent, hasCtx⟩

/-- State-passing form of NewRequest: the method body only reads the
receiver, so the client comes back unchanged. -/
def NewRequestS (c : Client) (hasCtx : Bool) (method path : String) (body : Option BodyVal) : ReqOutcome × Client :=
  (NewRequest c hasCtx method path body, c)

/-- Errors Do can return: a transport failure from http.Client.Do, an
API error from CheckResponse, or a decode error from the envelope
decode. -/
inductive GoErr where
  | transport : GoErr
  | apiError (status : Nat) : GoErr
  | decodeErr (e : DecErr) : GoErr
deriving DecidableEq

/-- Modelled from the spec: CheckResponse is called by Do but its
definition is not under src/; the spec classifies a status in the 2xx
family as Success (nil error) and anything else as Failure carrying
the status. -/
def checkResponse (status : Nat) : Option GoErr :=
  if 200 ≤ status ∧ status ≤ 299 then none else some (.apiError status)

/-- The transport response: status, body bytes, and whether closing
the body stream fails. -/
structure HttpResponse where
  status : Nat
  body : Body
  closeErr : Option Unit

/-- What a call to Do produces: the returned response and error, the
final state of the caller target, how many times the body stream was
closed, and how many times the completion callback ran. -/
structure DoResult where
  resp : Option HttpResponse
  err : Option GoErr
  target : Option Slot
  closeCount : Nat
  callbackCount : Nat

/-- Client.Do.  A transport failure returns (nil, err) at once,
without a response and without touching the body stream.  After a
successful dispatch the completion callback runs if registered, the
deferred close of the body stream is registered (so every later exit
closes exactly once), the status is classified, and on Success the
envelope decode runs into the caller target.  The deferred function in
the source assigns the close error to a local err variable, but the
function has unnamed results already copied at return, so the returned
error never reflects closeErr. -/
def Do (c : Client) (dispatch : Except Unit HttpResponse) (target : Option Slot) : DoResult :=
  match dispatch with
  | .error _ => ⟨none, some .transport, target, 0, 0⟩
  | .ok r =>
    let cb := if c.hasCallback then 1 else 0
    match checkResponse r.status with
    | some e => ⟨some r, some e, target, 1, cb⟩
    | none =>
      match decodeEnvelope target r.body with
      | .ok t => ⟨some r, none, t, 1, cb⟩
      | .error de => ⟨some r, some (.decodeErr de), target, 1, cb⟩

end Rest

namespace Edm

/-- Largest value of the Go int type on a 64-bit platform, the bound
strconv.Atoi enforces. -/
def int64Max : Nat := 9223372036854775807

/-- Interpretation of an integer as a Go int64: reduce modulo 2^64
into the signed range.  Used where int64 multiplication can
overflow. -/
def wrap64 (n : Int) : Int :=
  let m := n % 18446744073709551616
  if m < 9223372036854775808 then m else m - 18446744073709551616

/-- The leftmost maximal run of decimal digits in the string, as
regexp FindString with pattern [0-9]+ returns it; empty when the
string has no digit. -/
def findDigitRun : List Char → List Char
  | [] => []
  | c :: rest => if c.isDigit then c :: rest.takeWhile (·.isDigit) else findDigitRun rest

/-- Numeric value of a run of decimal digits, as strconv.Atoi parses
it. -/
def digitsToNat (l : List Char) : Nat :=
  l.foldl (fun acc c => 10 * acc + (c.toNat - '0'.toNat)) 0

/-- DateTime.UnmarshalJSON after the initial json.Unmarshal of the raw
text into a string value has succeeded: the empty string and a string
without digits leave the receiver at its zero value (modelled none)
with no error; a digit run that Atoi rejects as out of range returns
that error; otherwise the receiver is set to
time.Unix(0, int64(milis)*int64(time.Millisecond)), whose instant in
nanoseconds is the int64 product, wrapping on overflow. -/
def unmarshalDateTime (value : String) : Except Unit (Option Int) :=
  if value = "" then .ok none
  else
    let run := findDigitRun value.toList
    if run = [] then .ok none
    else if digitsToNat run > int64Max then .error ()
    else .ok (some (wrap64 ((digitsToNat run : Int) * 1000000)))

end Edm

namespace Rest

/-- Helper: leading slash count of a cons. -/
lemma leadingSlashes_cons (c : Char) (l : List Char) :
    leadingSlashes (c :: l) = if c = '/' then leadingSlashes l + 1 else 0 := by
  by_cases hc : c = '/' <;> simp [leadingSlashes, List.takeWhile_cons, hc]

/-- Helper: a list with at most one trailing slash has none left after
TrimSuffix removes one. -/
lemma trailingSlashes_trimSuffixSlash (l : List Char) (h : trailingSlashes l ≤ 1) :
    trailingSlashes (trimSuffixSlash l) = 0 := by
  rcases List.eq_nil_or_concat l with rfl | ⟨l', a, rfl⟩
  · simp [trimSuffixSlash, trailingSlashes, leadingSlashes]
  · simp only [List.concat_eq_append] at h ⊢
    by_cases ha : a = '/'
    · subst ha
      have htrim : trimSuffixSlash (l' ++ ['/']) = l' := by
        simp [trimSuffixSlash, List.getLast?_concat, List.dropLast_concat]
      rw [htrim]
      have h1 : trailingSlashes (l' ++ ['/']) = trailingSlashes l' + 1 := by
        simp [trailingSlashes, List.reverse_append, leadingSlashes_cons]
      omega
    · have htrim : trimSuffixSlash (l' ++ [a]) = l' ++ [a] := by
        simp [trimSuffixSlash, List.getLast?_concat, ha]
      rw [htrim]
      simp [trailingSlashes, List.reverse_append, leadingSlashes_cons, ha]

/-- Helper: a list with at most one leading slash has exactly one
after normalization. -/
lemma leadingSlashes_ensureLeadingSlash (p : List Char) (h : leadingSlashes p ≤ 1) :
    leadingSlashes (ensureLeadingSlash p) = 1 := by
  cases p with
  | nil => decide
  | cons c rest =>
    by_cases hc : c = '/'
    · have he : ensureLeadingSlash (c :: rest) = c :: rest := by
        simp [ensureLeadingSlash, hc]
      rw [he, leadingSlashes_cons, if_pos hc]
      rw [leadingSlashes_cons, if_pos hc] at h
      omega
    · have he : ensureLeadingSlash (c :: rest) = '/' :: c :: rest := by
        simp [ensureLeadingSlash, hc]
      rw [he, leadingSlashes_cons, if_pos rfl, leadingSlashes_cons, if_neg hc]

end Rest

namespace Rest

/-- Shared helper: on a Success (2xx) response whose body is a JSON
object without a top-level d member, Do returns no error and the
caller target is untouched. -/
lemma do_missing_d_noop (c : Client) (status : Nat) (fields : List (String × Json))
    (t : Slot) (ce : Option Unit)
    (h2 : 200 ≤ status) (h3 : status ≤ 299) (hd : jsonLookup "d" fields = none) :
    (Do c (.ok ⟨status, .json (.obj fields), ce⟩) (some t)).err = none ∧
    (Do c (.ok ⟨status, .json (.obj fields), ce⟩) (some t)).target = some t := by
  have hcr : checkResponse status = none := by simp [checkResponse, h2, h3]
  have hde : decodeEnvelope (some t) (.json (.obj fields)) = .ok (some t) := by
    simp [decodeEnvelope, hd]
  constructor <;> simp [Do, hcr, hde]

/-- Claim C1, counterexample: a 200 response whose body is the valid
JSON object with no members (so no d wrapper), with a non-nil target,
makes Do return no error and leave the target untouched — not the
decode failure the claim requires. -/
theorem claim_C1_counterexample :
    (Do ⟨some ⟨"https", "start.exactonline.nl", "/api/v1", ""⟩, false, "ua", false⟩
        (.ok ⟨200, .json (.obj []), none⟩) (some ⟨.num, .null⟩)).err = none ∧
    (Do ⟨some ⟨"https", "start.exactonline.nl", "/api/v1", ""⟩, false, "ua", false⟩
        (.ok ⟨200, .json (.obj []), none⟩) (some ⟨.num, .null⟩)).target = some ⟨.num, .null⟩ :=
  ⟨rfl, rfl⟩

/-- Claim C1 (amended): for every Success (2xx) response whose body is
a JSON object lacking the d wrapper and every non-nil target, Do
treats it as a silent no-op: it returns no error and leaves the target
untouched, because encoding/json ignores missing object members. -/
theorem claim_C1_missing_d_is_silent_noop (c : Client) (status : Nat)
    (fields : List (String × Json)) (t : Slot) (ce : Option Unit)
    (h2 : 200 ≤ status) (h3 : status ≤ 299) (hd : jsonLookup "d" fields = none) :
    (Do c (.ok ⟨status, .json (.obj fields), ce⟩) (some t)).err = none ∧
    (Do c (.ok ⟨status, .json (.obj fields), ce⟩) (some t)).target = some t :=
  do_missing_d_noop c status fields t ce h2 h3 hd

/-- Claim C1 witness: the amended claim at a concrete input. -/
theorem claim_C1_witness :
    (Do ⟨some ⟨"https", "h", "/v1", ""⟩, false, "ua", true⟩
        (.ok ⟨204, .json (.obj [("x", .num 1)]), none⟩) (some ⟨.str, .null⟩)).err = none ∧
    (Do ⟨some ⟨"https", "h", "/v1", ""⟩, false, "ua", true⟩
        (.ok ⟨204, .json (.obj [("x", .num 1)]), none⟩) (some ⟨.str, .null⟩)).target
      = some ⟨.str, .null⟩ :=
  claim_C1_missing_d_is_silent_noop _ 204 [("x", .num 1)] ⟨.str, .null⟩ none
    (by decide) (by decide) rfl

/-- Claim C2, counterexample: a 200 response with an empty body and a
nil target makes Do return a decode error (io.EOF from the json
decoder), so the envelope-decode step is not skipped. -/
theorem claim_C2_counterexample :
    (Do ⟨some ⟨"https", "h", "/api/v1", ""⟩, false, "ua", false⟩
        (.ok ⟨200, .empty, none⟩) none).err = some (.decodeErr .eof) :=
  rfl

/-- Claim C2 (amended): with a nil target the envelope decode still
runs (into an envelope whose Results field is a nil interface), so an
empty 2xx body returns a decode error rather than being skipped; the
body stream is still released exactly once. -/
theorem claim_C2_nil_target_decode_still_runs (c : Client) (status : Nat) (ce : Option Unit)
    (h2 : 200 ≤ status) (h3 : status ≤ 299) :
    (Do c (.ok ⟨status, .empty, ce⟩) none).err = some (.decodeErr .eof) ∧
    (Do c (.ok ⟨status, .empty, ce⟩) none).closeCount = 1 := by
  have hcr : checkResponse status = none := by simp [checkResponse, h2, h3]
  constructor <;> simp [Do, hcr, decodeEnvelope]

/-- Claim C2 witness: the amended claim at a concrete input. -/
theorem claim_C2_witness :
    (Do ⟨some ⟨"https", "h", "/v1", ""⟩, true, "ua", true⟩
        (.ok ⟨201, .empty, none⟩) none).err = some (.decodeErr .eof) ∧
    (Do ⟨some ⟨"https", "h", "/v1", ""⟩, true, "ua", true⟩
        (.ok ⟨201, .empty, none⟩) none).closeCount = 1 :=
  claim_C2_nil_target_decode_still_runs _ 201 none (by decide) (by decide)

/-- Claim C3, counterexample: after a non-transport-failure call — a
200 response whose body is valid JSON without the envelope, with a
non-nil target — neither of (returned error, successfully populated
target) holds: Do returns no error and the target still holds its
initial value. -/
theorem claim_C3_counterexample :
    (Do ⟨some ⟨"https", "h", "/api/v1", ""⟩, true, "ua", true⟩
        (.ok ⟨200, .json (.obj [("meta", .str "x")]), none⟩) (some ⟨.str, .str "old"⟩)).err
      = none ∧
    (Do ⟨some ⟨"https", "h", "/api/v1", ""⟩, true, "ua", true⟩
        (.ok ⟨200, .json (.obj [("meta", .str "x")]), none⟩) (some ⟨.str, .str "old"⟩)).target
      = some ⟨.str, .str "old"⟩ :=
  ⟨rfl, rfl⟩

/-- Claim C3 (amended): after every non-transport-failure call the raw
response is returned alongside for caller inspection, but it is not
the case that exactly one of (returned error, successfully populated
target) holds: on a 2xx body that is a JSON object lacking the d
wrapper, Do returns no error and leaves the target untouched, so
neither holds. -/
theorem claim_C3_error_xor_populated_fails :
    (∀ (c : Client) (r : HttpResponse) (t : Option Slot), (Do c (.ok r) t).resp = some r) ∧
    (∀ (c : Client) (status : Nat) (fields : List (String × Json)) (t : Slot) (ce : Option Unit),
      200 ≤ status → status ≤ 299 → jsonLookup "d" fields = none →
      (Do c (.ok ⟨status, .json (.obj fields), ce⟩) (some t)).err = none ∧
      (Do c (.ok ⟨status, .json (.obj fields), ce⟩) (some t)).target = some t) := by
  constructor
  · intro c r t
    unfold Do
    cases hc : checkResponse r.status
    · cases hd : decodeEnvelope t r.body <;> simp [hc, hd]
    · simp [hc]
  · intro c status fields t ce h2 h3 hd
    exact do_missing_d_noop c status fields t ce h2 h3 hd

/-- Claim C3 witness: both parts of the amended claim at concrete
inputs. -/
theorem claim_C3_witness :
    (Do ⟨some ⟨"https", "h", "/v1", ""⟩, false, "ua", false⟩
        (.ok ⟨404, .invalid, none⟩) none).resp = some ⟨404, .invalid, none⟩ ∧
    ((Do ⟨some ⟨"https", "h", "/v1", ""⟩, false, "ua", false⟩
        (.ok ⟨200, .json (.obj []), none⟩) (some ⟨.bool, .null⟩)).err = none ∧
     (Do ⟨some ⟨"https", "h", "/v1", ""⟩, false, "ua", false⟩
        (.ok ⟨200, .json (.obj []), none⟩) (some ⟨.bool, .null⟩)).target
       = some ⟨.bool, .null⟩) :=
  ⟨claim_C3_error_xor_populated_fails.1 _ _ _,
   claim_C3_error_xor_populated_fails.2 _ 200 [] ⟨.bool, .null⟩ none
     (by decide) (by decide) rfl⟩

end Rest

namespace Rest

/-- Claim C4, counterexample: with base path /api/v1// (two trailing
slashes) TrimSuffix removes only one, so the resolved URL keeps a
double slash at the junction: two separating slashes, not exactly
one. -/
theorem claim_C4_counterexample :
    GetEndpoint ⟨some ⟨"https", "start.exactonline.nl", "/api/v1//", ""⟩, false, "ua", false⟩
        "Items"
      = .ok ⟨"https", "start.exactonline.nl", "/api/v1//Items", ""⟩ ∧
    junctionSlashes "/api/v1//".toList "Items".toList = 2 := by
  constructor
  · rfl
  · decide

/-- Claim C4 (amended): provided the base path carries at most one
trailing slash and the relative path at most one leading slash, the
URL resolved by GetEndpoint is the trimmed base path concatenated with
the normalized relative path, with exactly one slash at the junction;
in particular base .../api/v1/ with Items and base .../api/v1 with
/Items both resolve to .../api/v1/Items. -/
theorem claim_C4_single_slash_junction (c : Client) (u : URL) (p : String)
    (hu : c.baseURL = some u)
    (hb : trailingSlashes u.path.toList ≤ 1)
    (hp : leadingSlashes p.toList ≤ 1) :
    ∃ v, GetEndpoint c p = .ok v ∧
      v.path.toList = trimSuffixSlash u.path.toList ++ ensureLeadingSlash p.toList ∧
      junctionSlashes u.path.toList p.toList = 1 := by
  refine ⟨{ u with path := resolvePathStr u.path p }, by simp [GetEndpoint, hu], rfl, ?_⟩
  unfold junctionSlashes
  rw [trailingSlashes_trimSuffixSlash _ hb, leadingSlashes_ensureLeadingSlash _ hp]

/-- Claim C4 witness: the amended claim at the two example inputs of
the claim, both resolving to /api/v1/Items. -/
theorem claim_C4_witness :
    (∃ v, GetEndpoint ⟨some ⟨"https", "h", "/api/v1/", ""⟩, false, "ua", false⟩ "Items"
        = .ok v ∧
      v.path.toList = trimSuffixSlash "/api/v1/".toList ++ ensureLeadingSlash "Items".toList ∧
      junctionSlashes "/api/v1/".toList "Items".toList = 1) ∧
    (∃ v, GetEndpoint ⟨some ⟨"https", "h", "/api/v1", ""⟩, false, "ua", false⟩ "/Items"
        = .ok v ∧
      v.path.toList = trimSuffixSlash "/api/v1".toList ++ ensureLeadingSlash "/Items".toList ∧
      junctionSlashes "/api/v1".toList "/Items".toList = 1) :=
  ⟨claim_C4_single_slash_junction _ ⟨"https", "h", "/api/v1/", ""⟩ "Items" rfl
     (by decide) (by decide),
   claim_C4_single_slash_junction _ ⟨"https", "h", "/api/v1", ""⟩ "/Items" rfl
     (by decide) (by decide)⟩

/-- Claim C5, counterexample: calling NewRequest with the base
endpoint unset ends in the nil-pointer dereference panic raised inside
GetEndpoint, which is not the InvalidURLError return the claim
requires. -/
theorem claim_C5_counterexample :
    NewRequest ⟨none, false, "ua", false⟩ false "GET" "Items" none = .panicNilDeref ∧
    ReqOutcome.panicNilDeref ≠ ReqOutcome.invalidURL :=
  ⟨rfl, fun h => ReqOutcome.noConfusion h⟩

/-- Claim C5 (amended): for every method, path and body, calling
NewRequest while the base endpoint is unset crashes with a nil-pointer
dereference panic inside GetEndpoint; no InvalidURLError and no
request is returned. -/
theorem claim_C5_unset_base_panics (c : Client) (hasCtx : Bool) (method path : String)
    (body : Option BodyVal) (h : c.baseURL = none) :
    NewRequest c hasCtx method path body = .panicNilDeref := by
  simp [NewRequest, h]

/-- Claim C5 witness: the amended claim at a concrete input. -/
theorem claim_C5_witness :
    NewRequest ⟨none, true, "agent", true⟩ true "POST" "/Items" (some (.good (.num 1)))
      = .panicNilDeref :=
  claim_C5_unset_base_panics ⟨none, true, "agent", true⟩ true "POST" "/Items"
    (some (.good (.num 1))) rfl

/-- Claim C8: the failing input evaluated on the code — a 200 response
with a well-formed envelope body whose Close reports an error
(closeErr = some): the deferred function assigns the close error to a
local variable after the unnamed results have been copied, so Do
returns no error and the close error is swallowed, while the decode
itself succeeded. -/
theorem claim_C8_close_error_swallowed :
    (Do ⟨some ⟨"https", "h", "/api/v1", ""⟩, false, "ua", false⟩
        (.ok ⟨200, .json (.obj [("d", .obj [("results", .num 5)])]), some ()⟩)
        (some ⟨.num, .null⟩)).err = none ∧
    (Do ⟨some ⟨"https", "h", "/api/v1", ""⟩, false, "ua", false⟩
        (.ok ⟨200, .json (.obj [("d", .obj [("results", .num 5)])]), some ()⟩)
        (some ⟨.num, .null⟩)).target = some ⟨.num, .num 5⟩ :=
  ⟨rfl, rfl⟩

/-- Claim C9: after every successful dispatch — whatever the status,
body, close outcome and target, so on the success, decode-failure and
classification-failure exits alike — the body stream is closed exactly
once. -/
theorem claim_C9_body_closed_exactly_once (c : Client) (r : HttpResponse) (t : Option Slot) :
    (Do c (.ok r) t).closeCount = 1 := by
  unfold Do
  cases hc : checkResponse r.status
  · cases hd : decodeEnvelope t r.body <;> simp [hc, hd]
  · simp [hc]

/-- Claim C10: GetEndpoint and NewRequest leave the stored client
configuration unchanged; the resolved endpoint keeps the scheme, host
and query of the base URL, only the path is replaced; and resolving
the same path again after a first resolution gives the same result. -/
theorem claim_C10_config_frame (c : Client) (u : URL) (p : String) (hu : c.baseURL = some u) :
    (GetEndpointS c p).2 = c ∧
    (∀ (hasCtx : Bool) (m : String) (b : Option BodyVal), (NewRequestS c hasCtx m p b).2 = c) ∧
    (∃ v, GetEndpoint c p = .ok v ∧
      v.scheme = u.scheme ∧ v.host = u.host ∧ v.query = u.query ∧
      v.path = resolvePathStr u.path p) ∧
    (GetEndpointS ((GetEndpointS c p).2) p).1 = (GetEndpointS c p).1 := by
  refine ⟨rfl, fun _ _ _ => rfl, ⟨{ u with path := resolvePathStr u.path p }, ?_, rfl, rfl, rfl, rfl⟩, rfl⟩
  simp [GetEndpoint, hu]

/-- Claim C10 witness: the frame property at a concrete client and
path. -/
theorem claim_C10_witness :
    (GetEndpointS ⟨some ⟨"https", "h", "/api/v1", "q=1"⟩, true, "ua", true⟩ "Items").2
      = ⟨some ⟨"https", "h", "/api/v1", "q=1"⟩, true, "ua", true⟩ ∧
    (∀ (hasCtx : Bool) (m : String) (b : Option BodyVal),
      (NewRequestS ⟨some ⟨"https", "h", "/api/v1", "q=1"⟩, true, "ua", true⟩ hasCtx m "Items" b).2
        = ⟨some ⟨"https", "h", "/api/v1", "q=1"⟩, true, "ua", true⟩) ∧
    (∃ v, GetEndpoint ⟨some ⟨"https", "h", "/api/v1", "q=1"⟩, true, "ua", true⟩ "Items"
        = .ok v ∧
      v.scheme = "https" ∧ v.host = "h" ∧ v.query = "q=1" ∧
      v.path = resolvePathStr "/api/v1" "Items") ∧
    (GetEndpointS ((GetEndpointS ⟨some ⟨"https", "h", "/api/v1", "q=1"⟩, true, "ua", true⟩
        "Items").2) "Items").1
      = (GetEndpointS ⟨some ⟨"https", "h", "/api/v1", "q=1"⟩, true, "ua", true⟩ "Items").1 :=
  claim_C10_config_frame _ ⟨"https", "h", "/api/v1", "q=1"⟩ "Items" rfl

end Rest

namespace Edm

/-- Claim C6: the failing input evaluated on the code — the digit run
9300000000000 is within the int range accepted by Atoi, so no error is
surfaced, yet the int64 product milis * 1000000 nanoseconds overflows
and wraps, producing an instant of -9146744073709551616 ns (before the
epoch) instead of 9300000000000 ms after the epoch. -/
theorem claim_C6_in_range_value_wraps :
    unmarshalDateTime "/Date(9300000000000)/" = .ok (some (-9146744073709551616)) ∧
    (-9146744073709551616 : Int) ≠ 9300000000000 * 1000000 ∧
    (9300000000000 : Nat) ≤ int64Max := by
  refine ⟨rfl, by decide, by decide⟩

/-- Claim C7: parsing /Date(1488939627017)/ yields the instant
1488939627017 ms (as nanoseconds since the Unix epoch); parsing the
empty string yields the unset zero value with no error; parsing
garbage, which contains no decimal digit, yields the unset zero value
with no error. -/
theorem claim_C7_datetime_examples :
    unmarshalDateTime "/Date(1488939627017)/" = .ok (some (1488939627017 * 1000000)) ∧
    unmarshalDateTime "" = .ok none ∧
    unmarshalDateTime "garbage" = .ok none :=
  ⟨rfl, rfl, rfl⟩

end Edm
